/-
Verification of the Contento_Ai orchestration core against its specification.

Shallow embedding of the Python sources under backend/ into Lean 4.
Python `str` is modelled by Lean `String` (the texts involved are ASCII, so
`String.toLower`/`String.trim` coincide with Python's `lower()`/`strip()` on
all inputs considered here); Python `float` is modelled by `ℚ` (the code only
compares, adds and divides scores, never exploits rounding of binary floats);
Python `int` by `ℤ`/`ℕ`.  External collaborators (the textstat readability
metric, the LLM, the Tavily search client, Python's float-to-string
rendering) are modelled as explicit function parameters.
-/
import Mathlib

set_option maxRecDepth 4000

/-! ## Python string primitives -/

/-- Python `needle in hay` (substring containment). -/
def pyIn (needle hay : String) : Bool :=
  (List.range (hay.toList.length + 1)).any
    (fun i => needle.toList.isPrefixOf (hay.toList.drop i))

/-- Python `s.strip()` — remove leading and trailing whitespace
(list-based, so it evaluates by kernel reduction). -/
def pyStrip (s : String) : String :=
  ⟨((s.toList.dropWhile Char.isWhitespace).reverse.dropWhile
      Char.isWhitespace).reverse⟩

/-- Python `text.split()` — split on whitespace runs, dropping empties. -/
def pySplitWS (text : String) : List String :=
  ((text.toList.splitOnP (fun c => c.isWhitespace)).filter
    (fun cs => cs ≠ [])).map (fun cs => ⟨cs⟩)

/-- Python `round(x, 1)` on the exact rational value
(ties, which Python resolves on the binary float, do not arise in any
statement below). -/
def pyRound1 (q : ℚ) : ℚ := (round (q * 10) : ℤ) / 10

/-- Python `round(x, 2)` on the exact rational value. -/
def pyRound2 (q : ℚ) : ℚ := (round (q * 100) : ℤ) / 100

/-- Auxiliary for `pyCount`: non-overlapping substring count, as Python
`hay.count(needle)` computes for a non-empty needle.  The `fuel` argument
(structural recursion so the kernel can evaluate it) starts at the
haystack's length, which every call strictly shrinks, so fuel never runs
out. -/
def pyCountAux (needle : List Char) : ℕ → List Char → ℕ
  | 0, _ => 0
  | _ + 1, [] => 0
  | fuel + 1, c :: rest =>
    if needle.isPrefixOf (c :: rest) then
      1 + pyCountAux needle fuel ((c :: rest).drop needle.length)
    else
      pyCountAux needle fuel rest

/-- Python `hay.count(needle)` (non-overlapping occurrences; `len+1` for the
empty needle, as in CPython). -/
def pyCount (hay needle : String) : ℕ :=
  if needle.toList = [] then hay.toList.length + 1
  else pyCountAux needle.toList hay.toList.length hay.toList

/-! ## backend/core/config.py — `Settings` (the fields the Quality Gate reads) -/

/-- `Settings` from backend/core/config.py, restricted to the fields the
decision logic reads (`MAX_LOOP_ATTEMPTS`, `CREATIVE_THRESHOLD`,
`COMPLIANCE_THRESHOLD`). -/
structure Settings where
  MAX_LOOP_ATTEMPTS : ℕ
  CREATIVE_THRESHOLD : ℚ
  COMPLIANCE_THRESHOLD : ℚ

/-! ## backend/core/state.py — the state fields the Decide stage touches -/

/-- `DiagnosticVector` from backend/core/state.py (metadata omitted: the
Decide logic never reads it). -/
structure DiagnosticVector where
  compliance_score : ℚ
  creative_score : ℚ
  engagement_score : ℚ
  flags : List String
  attempt_count : ℕ
  reasoning : String

/-- The projection of `ContentState` the Decision node reads and writes:
its diagnostic vector, the loop flag, the final output slot, the draft's
assembled `full_text` and the request's `platform`. -/
structure ContentState where
  diagnostic_vector : DiagnosticVector
  loop_continue : Bool
  final_output : Option String
  draft_full_text : String
  platform : String

/-! ## backend/agents/decision_node.py -/

/-- Replace every maximal run of `n` consecutive `'\n'` by
`min n 2` newlines — the effect of `re.sub(r'\n{3,}', '\n\n', s)`,
accumulator `pending` counts the newline run in progress. -/
def collapseNLAux : List Char → ℕ → List Char
  | [], pending => List.replicate (min pending 2) '\n'
  | c :: rest, pending =>
    if c = '\n' then collapseNLAux rest (pending + 1)
    else List.replicate (min pending 2) '\n' ++ c :: collapseNLAux rest 0

/-- `re.sub(r'\n{3,}', '\n\n', s)`: collapse every run of 3 or more
consecutive line breaks to exactly 2. -/
def collapseNL (s : String) : String :=
  ⟨collapseNLAux s.toList 0⟩

/-- Python `s.replace('\n', '\n\n')`: double every line break. -/
def doubleNL (s : String) : String :=
  ⟨s.toList.flatMap (fun c => if c = '\n' then ['\n', '\n'] else [c])⟩

/-- `DecisionNode._polish_content`: collapse 3+ breaks to 2; for the
`linkedin` platform double every break and re-collapse; finally
`content.strip()`. -/
def DecisionNode.polish_content (platform : String) (full_text : String) : String :=
  let content := collapseNL full_text
  let content :=
    if platform = "linkedin" then collapseNL (doubleNL content) else content
  pyStrip content

/-- The `feedback_parts` list assembled by
`DecisionNode._build_diagnostic_feedback`, in source order. -/
def DecisionNode.feedback_parts (settings : Settings)
    (diagnostic : DiagnosticVector) : List String :=
  (if diagnostic.flags ≠ [] then
    "COMPLIANCE ISSUES:" :: diagnostic.flags.map (fun flag => "- " ++ flag)
  else []) ++
  (if diagnostic.reasoning ≠ "" then
    ["\nCREATIVE FEEDBACK:", diagnostic.reasoning]
  else []) ++
  ["\nREVISION INSTRUCTIONS:"] ++
  (if diagnostic.compliance_score < 100 then
    ["- Fix all compliance issues listed above"]
  else []) ++
  (if diagnostic.creative_score < settings.CREATIVE_THRESHOLD then
    ["- Increase creative impact and persona alignment",
     "- Make the hook more provocative",
     "- Strengthen the unique angle"]
  else [])

/-- `DecisionNode._build_diagnostic_feedback`: `"\n".join(feedback_parts)`. -/
def DecisionNode.build_diagnostic_feedback (settings : Settings)
    (diagnostic : DiagnosticVector) : String :=
  "\n".intercalate (DecisionNode.feedback_parts settings diagnostic)

/-- `DecisionNode.execute`: the Quality Gate decision
(Accept / Revise / Exhausted). -/
def DecisionNode.execute (settings : Settings) (state : ContentState) :
    ContentState :=
  let diagnostic := state.diagnostic_vector
  let creative_pass := diagnostic.creative_score ≥ settings.CREATIVE_THRESHOLD
  let compliance_pass :=
    diagnostic.compliance_score ≥ settings.COMPLIANCE_THRESHOLD
  let attempts_remaining := diagnostic.attempt_count < settings.MAX_LOOP_ATTEMPTS
  if creative_pass ∧ compliance_pass then
    { state with
      loop_continue := false
      final_output :=
        some (DecisionNode.polish_content state.platform state.draft_full_text) }
  else if attempts_remaining then
    { state with
      loop_continue := true
      diagnostic_vector :=
        { diagnostic with
          attempt_count := diagnostic.attempt_count + 1
          reasoning :=
            DecisionNode.build_diagnostic_feedback settings
              { diagnostic with attempt_count := diagnostic.attempt_count + 1 } } }
  else
    { state with
      loop_continue := false
      final_output := some state.draft_full_text }

/-! ## C1 — the Quality Gate decision table -/

/-- C1: on every Decide evaluation, if both scores meet their thresholds the
gate Accepts (`loop_continue` becomes false and `final_output` is set);
otherwise if `attempt_count < MAX_LOOP_ATTEMPTS` it Revises (`loop_continue`
becomes true and `attempt_count` is incremented by exactly 1); otherwise it
Exhausts (`loop_continue` becomes false, `final_output` is set, and the
stored feedback text `reasoning` is left untouched — no feedback is
synthesized). -/
theorem C1_quality_gate_decision_table (settings : Settings)
    (state : ContentState) :
    (state.diagnostic_vector.creative_score ≥ settings.CREATIVE_THRESHOLD ∧
       state.diagnostic_vector.compliance_score ≥ settings.COMPLIANCE_THRESHOLD →
      (DecisionNode.execute settings state).loop_continue = false ∧
      (DecisionNode.execute settings state).final_output.isSome = true) ∧
    (¬ (state.diagnostic_vector.creative_score ≥ settings.CREATIVE_THRESHOLD ∧
        state.diagnostic_vector.compliance_score ≥ settings.COMPLIANCE_THRESHOLD) →
      state.diagnostic_vector.attempt_count < settings.MAX_LOOP_ATTEMPTS →
      (DecisionNode.execute settings state).loop_continue = true ∧
      (DecisionNode.execute settings state).diagnostic_vector.attempt_count =
        state.diagnostic_vector.attempt_count + 1) ∧
    (¬ (state.diagnostic_vector.creative_score ≥ settings.CREATIVE_THRESHOLD ∧
        state.diagnostic_vector.compliance_score ≥ settings.COMPLIANCE_THRESHOLD) →
      ¬ state.diagnostic_vector.attempt_count < settings.MAX_LOOP_ATTEMPTS →
      (DecisionNode.execute settings state).loop_continue = false ∧
      (DecisionNode.execute settings state).final_output =
        some state.draft_full_text ∧
      (DecisionNode.execute settings state).diagnostic_vector.reasoning =
        state.diagnostic_vector.reasoning) := by
  refine ⟨fun hpass => ?_, fun hfail hrem => ?_, fun hfail hrem => ?_⟩
  · simp [DecisionNode.execute, hpass]
  · simp [DecisionNode.execute, hfail, hrem]
  · simp [DecisionNode.execute, hfail, hrem]

/-- Concrete instantiation of `C1_quality_gate_decision_table`
(Scenario A-like accept: creative 9 ≥ 8.5, compliance 100 ≥ 100). -/
theorem C1_quality_gate_decision_table_witness :
    (DecisionNode.execute ⟨3, 85/10, 100⟩
        ⟨⟨100, 9, 0, [], 1, ""⟩, true, none, "draft", "blog"⟩).loop_continue
      = false ∧
    (DecisionNode.execute ⟨3, 85/10, 100⟩
        ⟨⟨100, 9, 0, [], 1, ""⟩, true, none, "draft", "blog"⟩).final_output.isSome
      = true := by
  exact (C1_quality_gate_decision_table ⟨3, 85/10, 100⟩
    ⟨⟨100, 9, 0, [], 1, ""⟩, true, none, "draft", "blog"⟩).1 (by norm_num)

/-! ## C8 — the revision loop: monotone attempts and termination -/

/-- Case analysis on one `DecisionNode.execute` step: either the gate stops
the loop and leaves `attempt_count` unchanged, or it revises —
`loop_continue` true, `attempt_count` bumped by one, and the pre-state's
`attempt_count` was below `MAX_LOOP_ATTEMPTS`. -/
theorem DecisionNode.execute_attempt_cases (settings : Settings)
    (state : ContentState) :
    ((DecisionNode.execute settings state).diagnostic_vector.attempt_count =
        state.diagnostic_vector.attempt_count ∧
      (DecisionNode.execute settings state).loop_continue = false) ∨
    ((DecisionNode.execute settings state).diagnostic_vector.attempt_count =
        state.diagnostic_vector.attempt_count + 1 ∧
      (DecisionNode.execute settings state).loop_continue = true ∧
      state.diagnostic_vector.attempt_count < settings.MAX_LOOP_ATTEMPTS) := by
  unfold DecisionNode.execute
  dsimp only
  split_ifs with h1 h2 <;> simp [*]

/-- Overwrite the two gated scores on a diagnostic vector — the effect of
the Score/Review stages before each Decide evaluation. -/
def setScores (d : DiagnosticVector) (creative compliance : ℚ) :
    DiagnosticVector :=
  { d with creative_score := creative, compliance_score := compliance }

/-- The revision loop as driven by `NexusPrimeWorkflow.should_continue`:
starting from `create_initial_state` (attempt_count 1, loop_continue true),
each iteration sets the scores delivered by the trajectory `traj` and runs
one Decide evaluation, as long as `loop_continue` holds. `gateRun … n` is
the state after `n` potential Decide evaluations. -/
def gateRun (settings : Settings) (traj : ℕ → ℚ × ℚ)
    (full_text platform : String) : ℕ → ContentState
  | 0 =>
    { diagnostic_vector := ⟨0, 0, 0, [], 1, ""⟩
      loop_continue := true
      final_output := none
      draft_full_text := full_text
      platform := platform }
  | n + 1 =>
    let s := gateRun settings traj full_text platform n
    if s.loop_continue then
      DecisionNode.execute settings
        { s with
          diagnostic_vector := setScores s.diagnostic_vector (traj n).1 (traj n).2 }
    else s

/-- While the loop is still continuing after `n` evaluations, at least `n`
revisions have happened: `attempt_count ≥ n + 1`. -/
theorem gateRun_cont_attempt_lower (settings : Settings) (traj : ℕ → ℚ × ℚ)
    (full_text platform : String) (n : ℕ)
    (h : (gateRun settings traj full_text platform n).loop_continue = true) :
    n + 1 ≤ (gateRun settings traj full_text platform n).diagnostic_vector.attempt_count := by
  induction n with
  | zero => simp [gateRun]
  | succ n ih =>
    by_cases hc : (gateRun settings traj full_text platform n).loop_continue = true
    · have hstep : gateRun settings traj full_text platform (n + 1) =
        DecisionNode.execute settings
          { gateRun settings traj full_text platform n with
            diagnostic_vector :=
              setScores
                (gateRun settings traj full_text platform n).diagnostic_vector
                (traj n).1 (traj n).2 } := by
        simp [gateRun, hc]
      rcases DecisionNode.execute_attempt_cases settings
          { gateRun settings traj full_text platform n with
            diagnostic_vector :=
              setScores
                (gateRun settings traj full_text platform n).diagnostic_vector
                (traj n).1 (traj n).2 } with hstop | hrev
      · rw [hstep] at h
        exact absurd h (by simp [hstop.2])
      · have := ih hc
        rw [hstep]
        rw [hrev.1]
        simp [setScores] at *
        omega
    · have hstep : gateRun settings traj full_text platform (n + 1) =
        gateRun settings traj full_text platform n := by
        simp [gateRun, hc]
      rw [hstep] at h
      exact absurd h hc

/-- If the loop still continues after a (positive) number of evaluations,
the last evaluation was a Revise, so `attempt_count ≤ MAX_LOOP_ATTEMPTS`. -/
theorem gateRun_cont_attempt_upper (settings : Settings) (traj : ℕ → ℚ × ℚ)
    (full_text platform : String) (n : ℕ)
    (h : (gateRun settings traj full_text platform (n + 1)).loop_continue = true) :
    (gateRun settings traj full_text platform (n + 1)).diagnostic_vector.attempt_count ≤
      settings.MAX_LOOP_ATTEMPTS := by
  by_cases hc : (gateRun settings traj full_text platform n).loop_continue = true
  · have hstep : gateRun settings traj full_text platform (n + 1) =
      DecisionNode.execute settings
        { gateRun settings traj full_text platform n with
          diagnostic_vector :=
            setScores
              (gateRun settings traj full_text platform n).diagnostic_vector
              (traj n).1 (traj n).2 } := by
      simp [gateRun, hc]
    rcases DecisionNode.execute_attempt_cases settings
        { gateRun settings traj full_text platform n with
          diagnostic_vector :=
            setScores
              (gateRun settings traj full_text platform n).diagnostic_vector
              (traj n).1 (traj n).2 } with hstop | hrev
    · rw [hstep] at h
      exact absurd h (by simp [hstop.2])
    · rw [hstep, hrev.1]
      have := hrev.2.2
      simp [setScores] at this ⊢
      omega
  · have hstep : gateRun settings traj full_text platform (n + 1) =
      gateRun settings traj full_text platform n := by
      simp [gateRun, hc]
    rw [hstep] at h
    exact absurd h hc

/-- C8: over any run of the revision loop, `attempt_count` is non-decreasing
across Decide evaluations — each evaluation leaves it unchanged or (only on
a Revise, i.e. when `loop_continue` comes out true) increments it by exactly
1 — and for every trajectory of creative/compliance scores the loop has
reached `loop_continue = false` after at most `MAX_LOOP_ATTEMPTS + 1` Decide
evaluations. -/
theorem C8_attempt_monotone_and_loop_terminates (settings : Settings)
    (traj : ℕ → ℚ × ℚ) (full_text platform : String) :
    (∀ n : ℕ,
      (gateRun settings traj full_text platform (n + 1)).diagnostic_vector.attempt_count =
          (gateRun settings traj full_text platform n).diagnostic_vector.attempt_count ∨
      ((gateRun settings traj full_text platform (n + 1)).diagnostic_vector.attempt_count =
          (gateRun settings traj full_text platform n).diagnostic_vector.attempt_count + 1 ∧
        (gateRun settings traj full_text platform (n + 1)).loop_continue = true)) ∧
    (∀ n : ℕ,
      (gateRun settings traj full_text platform n).diagnostic_vector.attempt_count ≤
        (gateRun settings traj full_text platform (n + 1)).diagnostic_vector.attempt_count) ∧
    (gateRun settings traj full_text platform
        (settings.MAX_LOOP_ATTEMPTS + 1)).loop_continue = false := by
  have hcase : ∀ n : ℕ,
      (gateRun settings traj full_text platform (n + 1)).diagnostic_vector.attempt_count =
          (gateRun settings traj full_text platform n).diagnostic_vector.attempt_count ∨
      ((gateRun settings traj full_text platform (n + 1)).diagnostic_vector.attempt_count =
          (gateRun settings traj full_text platform n).diagnostic_vector.attempt_count + 1 ∧
        (gateRun settings traj full_text platform (n + 1)).loop_continue = true) := by
    intro n
    by_cases hc : (gateRun settings traj full_text platform n).loop_continue = true
    · have hstep : gateRun settings traj full_text platform (n + 1) =
        DecisionNode.execute settings
          { gateRun settings traj full_text platform n with
            diagnostic_vector :=
              setScores
                (gateRun settings traj full_text platform n).diagnostic_vector
                (traj n).1 (traj n).2 } := by
        simp [gateRun, hc]
      rcases DecisionNode.execute_attempt_cases settings
          { gateRun settings traj full_text platform n with
            diagnostic_vector :=
              setScores
                (gateRun settings traj full_text platform n).diagnostic_vector
                (traj n).1 (traj n).2 } with hstop | hrev
    
      · left
        rw [hstep, hstop.1]
        simp [setScores]
      · right
        rw [hstep, hrev.1]
        constructor
        · simp [setScores]
        · exact hrev.2.1
    · left
      simp [gateRun, hc]
  refine ⟨hcase, fun n => ?_, ?_⟩
  · rcases hcase n with h | h
    · omega
    · omega
  · by_contra hcont
    simp only [Bool.not_eq_false] at hcont
    have h1 := gateRun_cont_attempt_lower settings traj full_text platform
      (settings.MAX_LOOP_ATTEMPTS + 1) hcont
    have h2 := gateRun_cont_attempt_upper settings traj full_text platform
      settings.MAX_LOOP_ATTEMPTS hcont
    omega

/-! ## C9 — final polish on Accept, verbatim output on Exhausted

`_polish_content` ends with `content.strip()`: the claim omits the final
strip of leading/trailing whitespace, so it fails on any draft with
leading or trailing whitespace. -/

/-- C9 counterexample: an Accept transition on a draft whose `full_text` is
`" hi "` (platform `blog`, thresholds met).  Collapsing runs of 3+ line
breaks leaves `" hi "` unchanged, yet the code publishes `"hi"` — the claim
as stated predicts `final_output = " hi "`, but the code also strips
surrounding whitespace. -/
theorem C9_counterexample :
    (DecisionNode.execute ⟨3, 0, 0⟩
        ⟨⟨0, 0, 0, [], 1, ""⟩, true, none, " hi ", "blog"⟩).final_output =
      some "hi" ∧
    collapseNL " hi " = " hi " ∧
    ("hi" : String) ≠ " hi " := by
  refine ⟨?_, by decide, by decide⟩
  have : ((0 : ℚ) ≥ 0 ∧ (0 : ℚ) ≥ 0) := ⟨le_refl 0, le_refl 0⟩
  simp [DecisionNode.execute, this, DecisionNode.polish_content]
  decide

/-- C9 (amended): on Accept, `final_output` is the draft's `full_text` with
every run of 3+ line breaks collapsed to 2 — for `linkedin`, with every
line break doubled and runs re-collapsed — and finally with leading and
trailing whitespace stripped; on Exhausted, `final_output` is the draft's
`full_text` verbatim, with no polish applied. -/
theorem C9_polish_on_accept_verbatim_on_exhaust (settings : Settings)
    (state : ContentState) :
    (state.diagnostic_vector.creative_score ≥ settings.CREATIVE_THRESHOLD ∧
       state.diagnostic_vector.compliance_score ≥ settings.COMPLIANCE_THRESHOLD →
      (DecisionNode.execute settings state).final_output =
        some (pyStrip (if state.platform = "linkedin" then
            collapseNL (doubleNL (collapseNL state.draft_full_text))
          else collapseNL state.draft_full_text))) ∧
    (¬ (state.diagnostic_vector.creative_score ≥ settings.CREATIVE_THRESHOLD ∧
        state.diagnostic_vector.compliance_score ≥ settings.COMPLIANCE_THRESHOLD) →
      ¬ state.diagnostic_vector.attempt_count < settings.MAX_LOOP_ATTEMPTS →
      (DecisionNode.execute settings state).final_output =
        some state.draft_full_text) := by
  constructor
  · intro hpass
    simp [DecisionNode.execute, hpass, DecisionNode.polish_content]
  · intro hfail hrem
    simp [DecisionNode.execute, hfail, hrem]

/-- Concrete instantiation of `C9_polish_on_accept_verbatim_on_exhaust`:
a `linkedin` Accept on `"a\nb\n\n\nc"` publishes `"a\n\nb\n\nc"`. -/
theorem C9_polish_on_accept_verbatim_on_exhaust_witness :
    (DecisionNode.execute ⟨3, 0, 0⟩
        ⟨⟨0, 0, 0, [], 1, ""⟩, true, none, "a\nb\n\n\nc", "linkedin"⟩).final_output =
      some "a\n\nb\n\nc" := by
  have h := (C9_polish_on_accept_verbatim_on_exhaust ⟨3, 0, 0⟩
      ⟨⟨0, 0, 0, [], 1, ""⟩, true, none, "a\nb\n\n\nc", "linkedin"⟩).1
      ⟨le_refl 0, le_refl 0⟩
  rw [h]
  decide

/-! ## C7 — content of the synthesized Revise feedback

The code appends the line `"- Fix all compliance issues listed above"`
(capital `F`); the literal lowercase phrase `"fix all compliance issues"`
claimed by the spec never occurs in the synthesized feedback. -/

/-- C7 counterexample: a Revise transition with `compliance_score = 50 <
100` whose synthesized feedback does **not** contain the literal (lowercase)
instruction `"fix all compliance issues"` — the code capitalizes the line as
`"- Fix all compliance issues listed above"`. -/
theorem C7_counterexample :
    (DecisionNode.execute ⟨3, 7, 100⟩
        ⟨⟨50, 6, 0, ["f1"], 1, "meh"⟩, true, none, "t", "blog"⟩).loop_continue =
      true ∧
    ((50 : ℚ) < 100) ∧
    pyIn "fix all compliance issues"
      (DecisionNode.execute ⟨3, 7, 100⟩
          ⟨⟨50, 6, 0, ["f1"], 1, "meh"⟩, true, none, "t", "blog"⟩).diagnostic_vector.reasoning =
      false := by
  have hfail : ¬ ((6 : ℚ) ≥ 7 ∧ (50 : ℚ) ≥ 100) := by norm_num
  have h50 : (50 : ℚ) < 100 := by norm_num
  have h67 : (6 : ℚ) < 7 := by norm_num
  refine ⟨?_, h50, ?_⟩
  · simp [DecisionNode.execute, hfail]
  · have hstep : (DecisionNode.execute ⟨3, 7, 100⟩
        ⟨⟨50, 6, 0, ["f1"], 1, "meh"⟩, true, none, "t",
          "blog"⟩).diagnostic_vector.reasoning =
        DecisionNode.build_diagnostic_feedback ⟨3, 7, 100⟩
          ⟨50, 6, 0, ["f1"], 2, "meh"⟩ := by
      simp [DecisionNode.execute, hfail]
    rw [hstep]
    have hparts : DecisionNode.feedback_parts ⟨3, 7, 100⟩
        ⟨50, 6, 0, ["f1"], 2, "meh"⟩ =
        ["COMPLIANCE ISSUES:", "- f1", "\nCREATIVE FEEDBACK:", "meh",
         "\nREVISION INSTRUCTIONS:", "- Fix all compliance issues listed above",
         "- Increase creative impact and persona alignment",
         "- Make the hook more provocative", "- Strengthen the unique angle"] := by
      simp [DecisionNode.feedback_parts, h50, h67]
    rw [DecisionNode.build_diagnostic_feedback, hparts]
    decide

/-- The four imperative lines the REVISION INSTRUCTIONS section can emit. -/
def revisionInstructionLines : List String :=
  ["- Fix all compliance issues listed above",
   "- Increase creative impact and persona alignment",
   "- Make the hook more provocative",
   "- Strengthen the unique angle"]


/-- Membership in the synthesized feedback parts, for a line distinct from
the fixed section headers and not injected through the flags or reasoning:
it occurs iff the corresponding REVISION INSTRUCTIONS condition fired. -/
theorem mem_feedback_parts_iff (settings : Settings) (d : DiagnosticVector)
    (line : String)
    (h1 : line ≠ "COMPLIANCE ISSUES:")
    (h2 : line ∉ d.flags.map (fun flag => "- " ++ flag))
    (h3 : line ≠ "\nCREATIVE FEEDBACK:")
    (h4 : line ≠ d.reasoning)
    (h5 : line ≠ "\nREVISION INSTRUCTIONS:") :
    (line ∈ DecisionNode.feedback_parts settings d) ↔
      ((d.compliance_score < 100 ∧
          line = "- Fix all compliance issues listed above") ∨
        (d.creative_score < settings.CREATIVE_THRESHOLD ∧
          (line = "- Increase creative impact and persona alignment" ∨
            line = "- Make the hook more provocative" ∨
            line = "- Strengthen the unique angle"))) := by
  unfold DecisionNode.feedback_parts
  split_ifs with hA hB hC hD <;>
    simp_all [List.mem_append, -not_lt]

/-- C7 (amended): the code emits the **capitalized** line
`"- Fix all compliance issues listed above"` (not the lowercase literal
`"fix all compliance issues"` of the claim).  Provided the diagnostic's
flags and reasoning do not themselves inject one of the canned instruction
lines, the synthesized feedback's parts list contains that compliance line
iff `compliance_score < 100`, and contains each of the three canned
creative-improvement directives iff
`creative_score < CREATIVE_THRESHOLD` — so with creative below threshold
and compliance at 100, the feedback carries the creative directives and no
compliance-fix instruction. -/
theorem C7_feedback_instruction_lines (settings : Settings)
    (d : DiagnosticVector)
    (hflags : ∀ f ∈ d.flags, ("- " ++ f) ∉ revisionInstructionLines)
    (hreason : d.reasoning ∉ revisionInstructionLines) :
    (("- Fix all compliance issues listed above" ∈
        DecisionNode.feedback_parts settings d) ↔
      d.compliance_score < 100) ∧
    (∀ line ∈ ["- Increase creative impact and persona alignment",
        "- Make the hook more provocative", "- Strengthen the unique angle"],
      (line ∈ DecisionNode.feedback_parts settings d) ↔
        d.creative_score < settings.CREATIVE_THRESHOLD) := by
  have hmap : ∀ line, line ∈ revisionInstructionLines →
      line ∉ d.flags.map (fun flag => "- " ++ flag) := by
    intro line hline hmem
    rcases List.mem_map.mp hmem with ⟨f, hf, heq⟩
    exact hflags f hf (heq ▸ hline)
  have hr : ∀ line, line ∈ revisionInstructionLines → line ≠ d.reasoning := by
    intro line hline heq
    exact hreason (heq ▸ hline)
  constructor
  · rw [mem_feedback_parts_iff settings d _ (by decide)
      (hmap _ (by decide)) (by decide) (hr _ (by decide)) (by decide)]
    simp
  · intro line hline
    simp only [List.mem_cons, List.mem_singleton, List.not_mem_nil,
      or_false] at hline
    rcases hline with rfl | rfl | rfl <;>
      (rw [mem_feedback_parts_iff settings d _ (by decide)
          (hmap _ (by decide)) (by decide) (hr _ (by decide)) (by decide)]
       simp)

/-- Concrete instantiation of `C7_feedback_instruction_lines` (the Scenario
B shape: creative 6 below threshold 7, compliance 100, one flag, generic
reasoning): the feedback parts carry the creative directive but no
compliance-fix line. -/
theorem C7_feedback_instruction_lines_witness :
    (("- Make the hook more provocative" ∈
        DecisionNode.feedback_parts ⟨3, 7, 100⟩
          ⟨100, 6, 0, ["f1"], 2, "meh"⟩) ↔ (6 : ℚ) < 7) ∧
    ¬ ("- Fix all compliance issues listed above" ∈
        DecisionNode.feedback_parts ⟨3, 7, 100⟩ ⟨100, 6, 0, ["f1"], 2, "meh"⟩) := by
  have h := C7_feedback_instruction_lines ⟨3, 7, 100⟩
    ⟨100, 6, 0, ["f1"], 2, "meh"⟩
    (by intro f hf; simp at hf; subst hf; decide)
    (by decide)
  constructor
  · exact h.2 "- Make the hook more provocative" (by simp)
  · rw [h.1]
    norm_num

/-! ## backend/services/search_service.py and
backend/agents/research_node.py — the fan-out research executor

The Tavily client is an external collaborator, modelled as a function
`collab : String → Except String (List SearchResult)` (a failing call is an
`Except.error`).  Task-level failures of the asyncio machinery (the
exceptions `asyncio.gather(…, return_exceptions=True)` hands back, and the
exceptions the sequential loop's `try/except` catches) are modelled by the
oracles `taskErr`/`raiseErr`, indexed by the query's position. -/

/-- One search result `{title, url, content, score}` as shaped by
`SearchService.search`. -/
structure SearchResult where
  title : String
  url : String
  content : String
  score : ℚ

/-- `SearchService.search`: call the client; on any exception return `[]`. -/
def SearchService.search (collab : String → Except String (List SearchResult))
    (query : String) : List SearchResult :=
  match collab query with
  | Except.ok results => results
  | Except.error _ => []

/-- `for idx, x in enumerate(l)`-style indexed map. -/
def mapWithIndex (f : ℕ → α → β) : ℕ → List α → List β
  | _, [] => []
  | i, x :: xs => f i x :: mapWithIndex f (i + 1) xs

/-- `SearchService.search_parallel`: dispatch one task per query, gather
with `return_exceptions=True` (order-preserving), then map any task-level
exception to `[]`. -/
def SearchService.search_parallel
    (collab : String → Except String (List SearchResult))
    (taskErr : ℕ → Bool) (queries : List String) : List (List SearchResult) :=
  let results : List (Except String (List SearchResult)) :=
    mapWithIndex
      (fun idx query =>
        if taskErr idx then Except.error "task failed"
        else Except.ok (SearchService.search collab query))
      0 queries
  results.map (fun result =>
    match result with
    | Except.error _ => []
    | Except.ok r => r)

/-- `ResearchNode._execute_sequential_search`: one query at a time, each in
its own `try/except` appending `[]` on failure. -/
def ResearchNode.execute_sequential_search
    (collab : String → Except String (List SearchResult))
    (raiseErr : ℕ → Bool) (queries : List String) : List (List SearchResult) :=
  mapWithIndex
    (fun idx query =>
      if raiseErr idx then [] else SearchService.search collab query)
    0 queries

/-- `mapWithIndex` keeps the length of its input. -/
theorem mapWithIndex_length (f : ℕ → α → β) (start : ℕ) (l : List α) :
    (mapWithIndex f start l).length = l.length := by
  induction l generalizing start with
  | nil => rfl
  | cons x xs ih => simp [mapWithIndex, ih]

/-- `mapWithIndex` is index-aligned: element `i` of the output is `f`
applied to position `start + i` and element `i` of the input (stated via
`getD`; the defaults are irrelevant since `i` is in range). -/
theorem mapWithIndex_getD (f : ℕ → α → β) (start : ℕ) (l : List α)
    (i : ℕ) (h : i < l.length) (da : α) (db : β) :
    (mapWithIndex f start l).getD i db = f (start + i) (l.getD i da) := by
  induction l generalizing start i with
  | nil => exact absurd h (by simp)
  | cons x xs ih =>
    cases i with
    | zero => simp [mapWithIndex]
    | succ i =>
      have hx : i < xs.length := by simpa using h
      have := ih (start + 1) i hx
      simpa [mapWithIndex, Nat.add_assoc, Nat.add_comm 1 i] using this

/-- `List.map` is index-aligned, stated via `getD` for an in-range index. -/
theorem map_getD_of_lt (g : α → β) (l : List α) (i : ℕ) (h : i < l.length)
    (da : α) (db : β) :
    (l.map g).getD i db = g (l.getD i da) := by
  induction l generalizing i with
  | nil => exact absurd h (by simp)
  | cons x xs ih =>
    cases i with
    | zero => simp
    | succ i =>
      have hx : i < xs.length := by simpa using h
      simpa using ih i hx

/-! ## C2 — order preservation and per-item failure isolation -/

/-- C2: for every list of `n` queries, both the concurrent (gather) path and
the sequential fallback return exactly `n` result lists, index-aligned with
the input: position `i` carries the empty list when that query's search
failed (a task-level error, or the client raising inside
`SearchService.search`) and the client's payload otherwise — no single
query's failure aborts the batch. -/
theorem C2_fanout_order_preserving_failure_isolated
    (collab : String → Except String (List SearchResult))
    (taskErr raiseErr : ℕ → Bool) (queries : List String) :
    (SearchService.search_parallel collab taskErr queries).length =
      queries.length ∧
    (ResearchNode.execute_sequential_search collab raiseErr queries).length =
      queries.length ∧
    (∀ i : ℕ, i < queries.length →
      (SearchService.search_parallel collab taskErr queries).getD i [] =
        (if taskErr i then []
         else match collab (queries.getD i "") with
           | Except.ok results => results
           | Except.error _ => [])) ∧
    (∀ i : ℕ, i < queries.length →
      (ResearchNode.execute_sequential_search collab raiseErr queries).getD i [] =
        (if raiseErr i then []
         else match collab (queries.getD i "") with
           | Except.ok results => results
           | Except.error _ => [])) := by
  refine ⟨?_, ?_, ?_, ?_⟩
  · simp [SearchService.search_parallel, mapWithIndex_length]
  · simp [ResearchNode.execute_sequential_search, mapWithIndex_length]
  · intro i hi
    show ((mapWithIndex
        (fun idx query =>
          if taskErr idx then Except.error "task failed"
          else Except.ok (SearchService.search collab query))
        0 queries).map _).getD i [] = _
    rw [map_getD_of_lt _ _ i (by rw [mapWithIndex_length]; exact hi)
      (Except.ok []) []]
    rw [mapWithIndex_getD _ 0 queries i hi "" (Except.ok [])]
    by_cases ht : taskErr i
    · simp [ht]
    · simp [ht, SearchService.search]
  · intro i hi
    show (mapWithIndex
        (fun idx query =>
          if raiseErr idx then [] else SearchService.search collab query)
        0 queries).getD i [] = _
    rw [mapWithIndex_getD _ 0 queries i hi "" []]
    by_cases hr : raiseErr i
    · simp [hr]
    · simp [hr, SearchService.search]

/-- Concrete instantiation of
`C2_fanout_order_preserving_failure_isolated`: two queries where the second
fails at task level on the parallel path: the output is `[payload, []]`. -/
theorem C2_fanout_order_preserving_failure_isolated_witness :
    (SearchService.search_parallel
        (fun q => if q = "q0" then Except.ok [⟨"t", "u", "c", 1⟩]
          else Except.error "boom")
        (fun idx => idx = 1) ["q0", "q1"]).getD 0 [] = [⟨"t", "u", "c", 1⟩] ∧
    (SearchService.search_parallel
        (fun q => if q = "q0" then Except.ok [⟨"t", "u", "c", 1⟩]
          else Except.error "boom")
        (fun idx => idx = 1) ["q0", "q1"]).getD 1 [] = [] := by
  have h := C2_fanout_order_preserving_failure_isolated
    (fun q => if q = "q0" then Except.ok [⟨"t", "u", "c", 1⟩]
      else Except.error "boom")
    (fun idx => idx = 1) (fun _ => false) ["q0", "q1"]
  constructor
  · rw [h.2.2.1 0 (by norm_num)]
    simp
  · rw [h.2.2.1 1 (by norm_num)]
    simp

/-! ## backend/services/metrics_service.py

External collaborators are explicit parameters: `fk` models
`textstat.flesch_kincaid_grade` (its `try/except` fallback to `0.0` is
folded into the oracle), `fmtF` models Python's float-to-`str` rendering
(only flag *texts* depend on it, never control flow).  The `rules` dict of
strings is modelled with its numeric parses already applied: key presence
becomes `Option.isSome`, `int(rules['readability_target'].replace('grade_',
''))` becomes the stored `ℤ`, `int(rules['paragraph_max_lines'])` the
stored `ℕ`, `float(...)` the stored `ℚ`. -/

/-- Python `s.lower()` (ASCII). -/
def pyLower (s : String) : String := ⟨s.toList.map Char.toLower⟩

/-- Auxiliary for `pySplitOn` (Python `s.split(sep)`, non-empty `sep`):
left-to-right, non-overlapping, keeping empties. -/
def pySplitOnAux (sep : List Char) : ℕ → List Char → List Char →
    List (List Char)
  | 0, l, acc => [acc.reverse ++ l]
  | _ + 1, [], acc => [acc.reverse]
  | fuel + 1, c :: rest, acc =>
    if sep.isPrefixOf (c :: rest) then
      acc.reverse :: pySplitOnAux sep fuel ((c :: rest).drop sep.length) []
    else
      pySplitOnAux sep fuel rest (c :: acc)

/-- Python `s.split(sep)` for a non-empty separator (Python raises
`ValueError` on an empty separator; that case is guarded off and unused).
Fuel starts at the string's length, which every call strictly shrinks. -/
def pySplitOn (s sep : String) : List String :=
  if sep = "" then [s]
  else (pySplitOnAux sep.toList s.toList.length s.toList []).map (fun cs => ⟨cs⟩)

/-- A regex `\w` word character (ASCII model). -/
def isWordChar (c : Char) : Bool := c.isAlphanum || c = '_'

/-- Whole-word occurrence of `w` at position `i` of `t` — the regex
`\b w \b` anchored at `i`. -/
def wholeWordAt (w t : List Char) (i : ℕ) : Bool :=
  w.isPrefixOf (t.drop i) &&
  ((i == 0) || !isWordChar (t.getD (i - 1) ' ')) &&
  !isWordChar (t.getD (i + w.length) ' ')

/-- `re.finditer(r'\b' + re.escape(w) + r'\b', t)` finds at least one
match. -/
def hasWholeWord (w t : List Char) : Bool :=
  (List.range (t.length + 1)).any (wholeWordAt w t)

/-- `MetricsService.FLAGGED_WORDS`. -/
def MetricsService.FLAGGED_WORDS : List String :=
  ["delve", "unleash", "tapestry", "realm", "leverage",
   "synergy", "paradigm shift", "game-changer", "cutting-edge",
   "innovative", "revolutionize", "next-generation", "robust",
   "disrupt", "transform", "empower", "optimize"]

/-- The distinct flagged words occurring (whole-word, case-insensitive) in
`text`, in `FLAGGED_WORDS` order — the deduplicated word list of
`MetricsService.detect_flagged_words_with_context` (whose per-match context
windows no claim touches; CPython's `set` iteration order is modelled as
first-occurrence order, and no statement below depends on the order of two
distinct flagged words). -/
def MetricsService.detect_flagged_words (text : String) : List String :=
  MetricsService.FLAGGED_WORDS.filter
    (fun word => hasWholeWord word.toList (pyLower text).toList)

/-- `MetricsService.calculate_readability`: `round(flesch_kincaid_grade(text),
1)` with the metric supplied by the oracle `fk` (the `except` branch
returning `0.0` is an oracle behavior). -/
def MetricsService.calculate_readability (fk : String → ℚ) (text : String) : ℚ :=
  pyRound1 (fk text)

/-- `MetricsService.check_paragraph_length`: split on blank lines; one
violation flag per non-blank paragraph whose internal line count exceeds
`max_lines` (1-based paragraph numbering). -/
def MetricsService.check_paragraph_length (text : String) (max_lines : ℕ) :
    List String :=
  let paragraphs := pySplitOn text "\n\n"
  (mapWithIndex
    (fun idx para =>
      let lines := para.toList.count '\n' + 1
      if lines > max_lines ∧ pyStrip para ≠ "" then
        some ("Paragraph " ++ toString idx ++ " has " ++ toString lines ++
          " lines (max: " ++ toString max_lines ++ ")")
      else none)
    1 paragraphs).filterMap id

/-- `MetricsService.calculate_keyword_density`: non-overlapping occurrence
count of the cleaned keyword over the word count, as a rounded
percentage. -/
def MetricsService.calculate_keyword_density (text keyword : String) : ℚ :=
  if keyword = "" ∨ text = "" then 0
  else
    let keyword_clean := pyStrip (pyLower keyword)
    let text_clean := pyLower text
    let word_count := (pySplitWS text).length
    if word_count = 0 then 0
    else
      let keyword_count := pyCount text_clean keyword_clean
      pyRound2 ((keyword_count : ℚ) / (word_count : ℚ) * 100)

/-- The `{in_title, in_first_100, in_headers}` result of
`MetricsService.check_keyword_placement`. -/
structure Placement where
  in_title : Bool
  in_first_100 : Bool
  in_headers : Bool
deriving DecidableEq

/-- The markdown H2/H3 headers `re.findall(r'^#{2,3}\s+(.+)$', text,
re.MULTILINE)` captures, modelled line-by-line: exactly 2 or 3 leading
`#`, at least one whitespace character, then a non-empty remainder (the
regex corner cases of `\s+` spanning lines or an all-whitespace remainder
are not modelled; no claim depends on header parsing). -/
def headersOf (text : String) : List String :=
  (pySplitOn text "\n").filterMap (fun line =>
    let cs := line.toList
    let hashes := cs.takeWhile (fun c => c = '#')
    let rest := cs.dropWhile (fun c => c = '#')
    if (hashes.length = 2 ∨ hashes.length = 3) ∧
        rest.takeWhile Char.isWhitespace ≠ [] ∧
        rest.dropWhile Char.isWhitespace ≠ [] then
      some ⟨rest.dropWhile Char.isWhitespace⟩
    else none)

/-- `MetricsService.check_keyword_placement`. -/
def MetricsService.check_keyword_placement (text keyword : String)
    (title : String) : Placement :=
  if keyword = "" then ⟨false, false, false⟩
  else
    let keyword_lower := pyLower keyword
    let in_title := if title ≠ "" then pyIn keyword_lower (pyLower title) else false
    let first_100_words := pyLower (" ".intercalate ((pySplitWS text).take 100))
    let in_first_100 := pyIn keyword_lower first_100_words
    let headers := headersOf text
    let in_headers := headers.any (fun h => pyIn keyword_lower (pyLower h))
    ⟨in_title, in_first_100, in_headers⟩

/-- The `(is_compliant, {density, placement}, issues)` result of
`MetricsService.check_seo_compliance_semantic`. -/
structure SeoCheck where
  is_compliant : Bool
  density : ℚ
  placement : Placement
  issues : List String

/-- `MetricsService.check_seo_compliance_semantic`: placement over density —
the check passes iff the keyword is in the title/H1 and in the first 100
words; missing placements and out-of-bounds density are reported as
issues, the density one being advisory only. -/
def MetricsService.check_seo_compliance_semantic (fmtF : ℚ → String)
    (text keyword title : String) (min_density max_density : ℚ) : SeoCheck :=
  let density := MetricsService.calculate_keyword_density text keyword
  let placement := MetricsService.check_keyword_placement text keyword title
  let issues :=
    (if !placement.in_title then ["Keyword missing from title/H1 (critical)"]
     else []) ++
    (if !placement.in_first_100 then
      ["Keyword missing from first 100 words (important)"]
     else []) ++
    (if !placement.in_headers then
      ["Keyword missing from subheaders (recommended)"]
     else []) ++
    (if density < min_density then
      ["Keyword density low: " ++ fmtF density ++ "% (guide: " ++
        fmtF min_density ++ "%+)"]
     else if density > max_density then
      ["Keyword density high: " ++ fmtF density ++
        "% (may feel unnatural, guide: <" ++ fmtF max_density ++ "%)"]
     else [])
  let is_compliant := placement.in_title && placement.in_first_100
  ⟨is_compliant, density, placement, issues⟩

/-- The rule keys `calculate_compliance_score` reads, with their numeric
parses applied (each `Option` is `some` iff the key is present in the
Python `rules` dict). -/
structure Rules where
  readability_target : Option ℤ
  paragraph_max_lines : Option ℕ
  keyword_density_min : Option ℚ
  keyword_density_max : Option ℚ

/-- Outcome of one `calculate_compliance_score` check block:
did it contribute to `total_checks`, did it contribute to `passed_checks`,
and which flags it appended. -/
structure CheckResult where
  applicable : Bool
  passed : Bool
  flags : List String

/-- Python truthiness of the optional `keyword` argument. -/
def pyTruthy (keyword : Option String) : Bool :=
  match keyword with
  | some k => k ≠ ""
  | none => false

/-- The readability block of `calculate_compliance_score`. -/
def MetricsService.readabilityCheck (fk : String → ℚ) (fmtF : ℚ → String)
    (text : String) (rules : Rules) : CheckResult :=
  match rules.readability_target with
  | none => ⟨false, false, []⟩
  | some target =>
    let grade := MetricsService.calculate_readability fk text
    if grade ≤ (target : ℚ) then ⟨true, true, []⟩
    else ⟨true, false,
      ["Readability grade " ++ fmtF grade ++ " exceeds target " ++
        toString target]⟩

/-- The paragraph-length block of `calculate_compliance_score`. -/
def MetricsService.paragraphCheck (text : String) (rules : Rules) :
    CheckResult :=
  match rules.paragraph_max_lines with
  | none => ⟨false, false, []⟩
  | some max_lines =>
    let violations := MetricsService.check_paragraph_length text max_lines
    if violations = [] then ⟨true, true, []⟩
    else ⟨true, false, violations⟩

/-- The flagged-words block of `calculate_compliance_score`: a single
advisory flag listing the distinct flagged words, never contributing to
`total_checks`/`passed_checks`. -/
def MetricsService.flaggedWordsAdvisory (text : String) : List String :=
  let flagged := MetricsService.detect_flagged_words text
  if flagged ≠ [] then
    ["Flagged words detected (need context review): " ++
      ", ".intercalate flagged]
  else []

/-- The SEO block of `calculate_compliance_score`: applicable only when a
keyword was supplied and a density bound is configured (defaults 0.5 /
2.5 for the missing bound). -/
def MetricsService.seoCheck (fmtF : ℚ → String) (text : String)
    (rules : Rules) (keyword : Option String) (title : String) : CheckResult :=
  if pyTruthy keyword ∧
      (rules.keyword_density_min.isSome ∨ rules.keyword_density_max.isSome) then
    let min_density := rules.keyword_density_min.getD (1/2)
    let max_density := rules.keyword_density_max.getD (5/2)
    let seo := MetricsService.check_seo_compliance_semantic fmtF text
      (keyword.getD "") title min_density max_density
    if seo.is_compliant then ⟨true, true, []⟩
    else ⟨true, false, seo.issues⟩
  else ⟨false, false, []⟩

/-- `MetricsService.calculate_compliance_score`: run the three checks in
source order, accumulate `total_checks`/`passed_checks` and the flags
(readability flags, paragraph flags, flagged-words advisory, SEO issues —
in exactly that order, as in the source), and return
`round(passed/total*100, 1)` with `0.0` when no check was applicable. -/
def MetricsService.calculate_compliance_score (fk : String → ℚ)
    (fmtF : ℚ → String) (text : String) (rules : Rules)
    (keyword : Option String) (title : String) : ℚ × List String :=
  let r := MetricsService.readabilityCheck fk fmtF text rules
  let p := MetricsService.paragraphCheck text rules
  let w := MetricsService.flaggedWordsAdvisory text
  let s := MetricsService.seoCheck fmtF text rules keyword title
  let total_checks := r.applicable.toNat + p.applicable.toNat + s.applicable.toNat
  let passed_checks := r.passed.toNat + p.passed.toNat + s.passed.toNat
  let flags := r.flags ++ p.flags ++ w ++ s.flags
  let score :=
    if total_checks > 0 then (passed_checks : ℚ) / (total_checks : ℚ) * 100
    else 0
  (pyRound1 score, flags)

/-! ## C3 — the compliance score formula -/

/-- The number of applicable checks: readability target, paragraph max
lines, and the keyword-placement check when a keyword was supplied and a
density bound is configured. -/
def MetricsService.numApplicableChecks (rules : Rules)
    (keyword : Option String) : ℕ :=
  (if rules.readability_target.isSome then 1 else 0) +
  (if rules.paragraph_max_lines.isSome then 1 else 0) +
  (if pyTruthy keyword ∧
      (rules.keyword_density_min.isSome ∨ rules.keyword_density_max.isSome)
   then 1 else 0)

/-- The number of applicable checks that pass (readability at or below
target, no paragraph violation, keyword placed in title and first 100
words). -/
def MetricsService.numPassedChecks (fk : String → ℚ) (text : String)
    (rules : Rules) (keyword : Option String) (title : String) : ℕ :=
  (match rules.readability_target with
   | none => 0
   | some target =>
     if MetricsService.calculate_readability fk text ≤ (target : ℚ) then 1
     else 0) +
  (match rules.paragraph_max_lines with
   | none => 0
   | some max_lines =>
     if MetricsService.check_paragraph_length text max_lines = [] then 1
     else 0) +
  (if pyTruthy keyword ∧
      (rules.keyword_density_min.isSome ∨ rules.keyword_density_max.isSome)
   then
     (if (MetricsService.check_seo_compliance_semantic (fun _ => "") text
          (keyword.getD "") title (rules.keyword_density_min.getD (1/2))
          (rules.keyword_density_max.getD (5/2))).is_compliant
      then 1 else 0)
   else 0)

/-- The seo check's verdict does not depend on the float renderer. -/
theorem seo_is_compliant_fmt_irrelevant (fmtF : ℚ → String)
    (text keyword title : String) (min_density max_density : ℚ) :
    (MetricsService.check_seo_compliance_semantic fmtF text keyword title
        min_density max_density).is_compliant =
      (MetricsService.check_seo_compliance_semantic (fun _ => "") text keyword
          title min_density max_density).is_compliant := rfl

/-- `calculate_compliance_score` counts exactly the applicable checks and
the passing ones among them. -/
theorem compliance_counts (fk : String → ℚ) (fmtF : ℚ → String)
    (text : String) (rules : Rules) (keyword : Option String)
    (title : String) :
    (MetricsService.readabilityCheck fk fmtF text rules).applicable.toNat +
        (MetricsService.paragraphCheck text rules).applicable.toNat +
        (MetricsService.seoCheck fmtF text rules keyword title).applicable.toNat =
      MetricsService.numApplicableChecks rules keyword ∧
    (MetricsService.readabilityCheck fk fmtF text rules).passed.toNat +
        (MetricsService.paragraphCheck text rules).passed.toNat +
        (MetricsService.seoCheck fmtF text rules keyword title).passed.toNat =
      MetricsService.numPassedChecks fk text rules keyword title := by
  constructor
  · unfold MetricsService.readabilityCheck MetricsService.paragraphCheck
      MetricsService.seoCheck MetricsService.numApplicableChecks
    rcases rules.readability_target with _ | target <;>
      rcases rules.paragraph_max_lines with _ | m <;>
      by_cases hkw : pyTruthy keyword ∧
        (rules.keyword_density_min.isSome ∨ rules.keyword_density_max.isSome) <;>
      simp [hkw] <;> split_ifs <;> simp
  · unfold MetricsService.readabilityCheck MetricsService.paragraphCheck
      MetricsService.seoCheck MetricsService.numPassedChecks
    rcases rules.readability_target with _ | target <;>
      rcases rules.paragraph_max_lines with _ | m <;>
      by_cases hkw : pyTruthy keyword ∧
        (rules.keyword_density_min.isSome ∨ rules.keyword_density_max.isSome) <;>
      simp [hkw, seo_is_compliant_fmt_irrelevant fmtF] <;>
      split_ifs <;> simp_all [seo_is_compliant_fmt_irrelevant fmtF]

/-- C3: the compliance scorer returns `round(passed/total × 100, 1)` where
`total` counts exactly the applicable checks and `passed` the passing ones;
when no check is applicable the score is `0.0`; hence for `k` applicable
checks the score is one of the rounded multiples `round(100·i/k, 1)`,
`i ≤ k`; and repeated evaluation on the same inputs yields the same
`(score, flags)` pair. -/
theorem C3_compliance_score_characterization (fk : String → ℚ)
    (fmtF : ℚ → String) (text : String) (rules : Rules)
    (keyword : Option String) (title : String) :
    MetricsService.numPassedChecks fk text rules keyword title ≤
      MetricsService.numApplicableChecks rules keyword ∧
    (MetricsService.calculate_compliance_score fk fmtF text rules keyword
        title).1 =
      pyRound1
        (if MetricsService.numApplicableChecks rules keyword = 0 then 0
         else
           (MetricsService.numPassedChecks fk text rules keyword title : ℚ) /
             (MetricsService.numApplicableChecks rules keyword : ℚ) * 100) ∧
    (MetricsService.numApplicableChecks rules keyword = 0 →
      (MetricsService.calculate_compliance_score fk fmtF text rules keyword
          title).1 = 0) ∧
    (MetricsService.numApplicableChecks rules keyword ≠ 0 →
      ∃ i ≤ MetricsService.numApplicableChecks rules keyword,
        (MetricsService.calculate_compliance_score fk fmtF text rules keyword
            title).1 =
          pyRound1 ((i : ℚ) /
            (MetricsService.numApplicableChecks rules keyword : ℚ) * 100)) ∧
    MetricsService.calculate_compliance_score fk fmtF text rules keyword
        title =
      MetricsService.calculate_compliance_score fk fmtF text rules keyword
        title := by
  obtain ⟨htot, hpass⟩ := compliance_counts fk fmtF text rules keyword title
  have hle : MetricsService.numPassedChecks fk text rules keyword title ≤
      MetricsService.numApplicableChecks rules keyword := by
    unfold MetricsService.numPassedChecks MetricsService.numApplicableChecks
    rcases rules.readability_target with _ | target <;>
      rcases rules.paragraph_max_lines with _ | m <;>
      by_cases hkw : pyTruthy keyword ∧
        (rules.keyword_density_min.isSome ∨ rules.keyword_density_max.isSome) <;>
      simp [hkw] <;> split_ifs <;> omega
  have hraw : (MetricsService.calculate_compliance_score fk fmtF text rules
      keyword title).1 =
      pyRound1
        (if 0 < (MetricsService.readabilityCheck fk fmtF text rules).applicable.toNat +
            (MetricsService.paragraphCheck text rules).applicable.toNat +
            (MetricsService.seoCheck fmtF text rules keyword title).applicable.toNat
         then
          (((MetricsService.readabilityCheck fk fmtF text rules).passed.toNat +
              (MetricsService.paragraphCheck text rules).passed.toNat +
              (MetricsService.seoCheck fmtF text rules keyword
                  title).passed.toNat : ℕ) : ℚ) /
            (((MetricsService.readabilityCheck fk fmtF text rules).applicable.toNat +
                (MetricsService.paragraphCheck text rules).applicable.toNat +
                (MetricsService.seoCheck fmtF text rules keyword
                    title).applicable.toNat : ℕ) : ℚ) * 100
         else 0) := rfl
  have hscore : (MetricsService.calculate_compliance_score fk fmtF text rules
      keyword title).1 =
      pyRound1
        (if MetricsService.numApplicableChecks rules keyword = 0 then 0
         else
           (MetricsService.numPassedChecks fk text rules keyword title : ℚ) /
             (MetricsService.numApplicableChecks rules keyword : ℚ) * 100) := by
    rw [hraw, htot, hpass]
    rcases Nat.eq_zero_or_pos (MetricsService.numApplicableChecks rules keyword)
      with h0 | hpos
    · simp [h0]
    · rw [if_pos hpos, if_neg (by omega)]
  refine ⟨hle, hscore, ?_, ?_, rfl⟩
  · intro h0
    rw [hscore, if_pos h0]
    norm_num [pyRound1]
  · intro hne
    exact ⟨MetricsService.numPassedChecks fk text rules keyword title, hle,
      by rw [hscore, if_neg hne]⟩

/-- Concrete instantiation of `C3_compliance_score_characterization`: a
rule set with one applicable check gives a score among the rounded
multiples of 100/1. -/
theorem C3_compliance_score_characterization_witness :
    ∃ i ≤ MetricsService.numApplicableChecks ⟨none, some 3, none, none⟩ none,
      (MetricsService.calculate_compliance_score (fun _ => 0) (fun _ => "")
          "a" ⟨none, some 3, none, none⟩ none "").1 =
        pyRound1 ((i : ℚ) /
          (MetricsService.numApplicableChecks ⟨none, some 3, none, none⟩ none : ℚ)
            * 100) :=
  (C3_compliance_score_characterization (fun _ => 0) (fun _ => "") "a"
    ⟨none, some 3, none, none⟩ none "").2.2.2.1 (by decide)

/-! ## C5 — ordering of the returned flags

The source appends the flagged-words advisory **before** the SEO/keyword
issues (metrics_service.py lines 202–207 precede 209–223), so the advisory
is not last whenever the keyword check fails. -/

/-- C5 (amended): the flags are ordered readability flags, then paragraph
flags, then the advisory lexical (flagged-words) flag, then the
keyword-placement/SEO flags — the advisory precedes the keyword flags
rather than coming last. -/
theorem C5_flags_category_order (fk : String → ℚ) (fmtF : ℚ → String)
    (text : String) (rules : Rules) (keyword : Option String)
    (title : String) :
    (MetricsService.calculate_compliance_score fk fmtF text rules keyword
        title).2 =
      (MetricsService.readabilityCheck fk fmtF text rules).flags ++
      (MetricsService.paragraphCheck text rules).flags ++
      MetricsService.flaggedWordsAdvisory text ++
      (MetricsService.seoCheck fmtF text rules keyword title).flags := rfl

/-- The density of `"seo"` in `"We delve into seo today."`: 1 occurrence
over 5 words. -/
theorem density_delve_text :
    MetricsService.calculate_keyword_density "We delve into seo today." "seo" =
      20 := by
  have hw : (pySplitWS "We delve into seo today.").length = 5 := by decide
  have hc : pyCount (pyLower "We delve into seo today.")
      (pyStrip (pyLower "seo")) = 1 := by decide
  unfold MetricsService.calculate_keyword_density
  rw [if_neg (by decide)]
  simp only [hw, hc]
  norm_num [pyRound2, round_eq]

/-- C5 counterexample: with no readability/paragraph rules, a keyword with
density bounds, an empty title and a text containing the flagged word
`delve`, the advisory lexical flag comes **first** and the keyword flags
after it — the advisory is not the last flag, contradicting the claimed
ordering. -/
theorem C5_counterexample :
    (MetricsService.calculate_compliance_score (fun _ => 0) (fun _ => "X")
        "We delve into seo today." ⟨none, none, some (1/2), some (5/2)⟩
        (some "seo") "").2 =
      ["Flagged words detected (need context review): delve",
       "Keyword missing from title/H1 (critical)",
       "Keyword missing from subheaders (recommended)",
       "Keyword density high: X% (may feel unnatural, guide: <X%)"] ∧
    (MetricsService.calculate_compliance_score (fun _ => 0) (fun _ => "X")
        "We delve into seo today." ⟨none, none, some (1/2), some (5/2)⟩
        (some "seo") "").2.getLast? ≠
      some "Flagged words detected (need context review): delve" := by
  have hplace : MetricsService.check_keyword_placement
      "We delve into seo today." "seo" "" = ⟨false, true, false⟩ := by decide
  have hseo : MetricsService.check_seo_compliance_semantic (fun _ => "X")
      "We delve into seo today." "seo" "" (1/2) (5/2) =
      ⟨false, 20, ⟨false, true, false⟩,
       ["Keyword missing from title/H1 (critical)",
        "Keyword missing from subheaders (recommended)",
        "Keyword density high: X% (may feel unnatural, guide: <X%)"]⟩ := by
    unfold MetricsService.check_seo_compliance_semantic
    simp only [density_delve_text, hplace]
    norm_num
    decide
  have hseocheck : MetricsService.seoCheck (fun _ => "X")
      "We delve into seo today." ⟨none, none, some (1/2), some (5/2)⟩
      (some "seo") "" =
      ⟨true, false,
       ["Keyword missing from title/H1 (critical)",
        "Keyword missing from subheaders (recommended)",
        "Keyword density high: X% (may feel unnatural, guide: <X%)"]⟩ := by
    unfold MetricsService.seoCheck
    rw [if_pos ⟨by decide, Or.inl rfl⟩]
    simp only [Option.getD_some]
    rw [hseo]
    simp
  have hflags : (MetricsService.calculate_compliance_score (fun _ => 0)
      (fun _ => "X") "We delve into seo today."
      ⟨none, none, some (1/2), some (5/2)⟩ (some "seo") "").2 =
      (MetricsService.readabilityCheck (fun _ => 0) (fun _ => "X")
        "We delve into seo today." ⟨none, none, some (1/2), some (5/2)⟩).flags ++
      (MetricsService.paragraphCheck "We delve into seo today."
        ⟨none, none, some (1/2), some (5/2)⟩).flags ++
      MetricsService.flaggedWordsAdvisory "We delve into seo today." ++
      (MetricsService.seoCheck (fun _ => "X") "We delve into seo today."
        ⟨none, none, some (1/2), some (5/2)⟩ (some "seo") "").flags := rfl
  have hadv : MetricsService.flaggedWordsAdvisory "We delve into seo today." =
      ["Flagged words detected (need context review): delve"] := by decide
  have heq : (MetricsService.calculate_compliance_score (fun _ => 0)
      (fun _ => "X") "We delve into seo today."
      ⟨none, none, some (1/2), some (5/2)⟩ (some "seo") "").2 =
      ["Flagged words detected (need context review): delve",
       "Keyword missing from title/H1 (critical)",
       "Keyword missing from subheaders (recommended)",
       "Keyword density high: X% (may feel unnatural, guide: <X%)"] := by
    rw [hflags, hseocheck, hadv]
    rfl
  refine ⟨heq, ?_⟩
  rw [heq]
  decide

/-! ## C6 — the keyword-placement check and the density advisory -/

/-- A non-empty needle is not a substring of the empty string. -/
theorem pyIn_empty_hay (needle : String) (h : needle.toList ≠ []) :
    pyIn needle "" = false := by
  unfold pyIn
  cases hn : needle.toList with
  | nil => exact absurd hn h
  | cons c cs => simp [hn, List.isPrefixOf]

/-- `pyLower` preserves (non-)emptiness. -/
theorem pyLower_toList_ne (s : String) (h : s ≠ "") :
    (pyLower s).toList ≠ [] := by
  unfold pyLower
  cases s with
  | mk data =>
    cases data with
    | nil => exact absurd rfl h
    | cons c cs => simp

/-- The density of `"seo"` in `"seo is here now"`: 1 occurrence over 4
words. -/
theorem density_seo_here :
    MetricsService.calculate_keyword_density "seo is here now" "seo" = 25 := by
  have hw : (pySplitWS "seo is here now").length = 4 := by decide
  have hc : pyCount (pyLower "seo is here now") (pyStrip (pyLower "seo")) = 1 := by
    decide
  unfold MetricsService.calculate_keyword_density
  rw [if_neg (by decide)]
  simp only [hw, hc]
  norm_num [pyRound2, round_eq]

/-- C6 counterexample: text `"seo is here now"`, keyword `"seo"`, title
`"seo"`, density bounds `[0.5, 2.5]`.  The placement check passes (keyword
in title and in the first 100 words) and the density 25% is outside the
bounds, yet the scorer's returned flags are **empty** — the density
advisory is not surfaced when the placement check passes, because
`calculate_compliance_score` extends the flags with the check's issues
only on a failing check (metrics_service.py lines 220–223). -/
theorem C6_counterexample :
    (MetricsService.check_seo_compliance_semantic (fun _ => "X")
        "seo is here now" "seo" "seo" (1/2) (5/2)).is_compliant = true ∧
    (MetricsService.check_seo_compliance_semantic (fun _ => "X")
        "seo is here now" "seo" "seo" (1/2) (5/2)).density = 25 ∧
    ((25 : ℚ) > 5/2) ∧
    (MetricsService.calculate_compliance_score (fun _ => 0) (fun _ => "X")
        "seo is here now" ⟨none, none, some (1/2), some (5/2)⟩ (some "seo")
        "seo").2 = [] := by
  have hd : (MetricsService.check_seo_compliance_semantic (fun _ => "X")
      "seo is here now" "seo" "seo" (1/2) (5/2)).density =
      MetricsService.calculate_keyword_density "seo is here now" "seo" := rfl
  refine ⟨by decide, ?_, by norm_num, ?_⟩
  · rw [hd]
    exact density_seo_here
  · have hsc : MetricsService.seoCheck (fun _ => "X") "seo is here now"
        ⟨none, none, some (1/2), some (5/2)⟩ (some "seo") "seo" =
        ⟨true, true, []⟩ := by
      unfold MetricsService.seoCheck
      rw [if_pos ⟨by decide, Or.inl rfl⟩]
      simp only [Option.getD_some]
      rw [if_pos (by decide)]
    have hflags : (MetricsService.calculate_compliance_score (fun _ => 0)
        (fun _ => "X") "seo is here now" ⟨none, none, some (1/2), some (5/2)⟩
        (some "seo") "seo").2 =
        (MetricsService.readabilityCheck (fun _ => 0) (fun _ => "X")
          "seo is here now" ⟨none, none, some (1/2), some (5/2)⟩).flags ++
        (MetricsService.paragraphCheck "seo is here now"
          ⟨none, none, some (1/2), some (5/2)⟩).flags ++
        MetricsService.flaggedWordsAdvisory "seo is here now" ++
        (MetricsService.seoCheck (fun _ => "X") "seo is here now"
          ⟨none, none, some (1/2), some (5/2)⟩ (some "seo") "seo").flags := rfl
    rw [hflags, hsc]
    decide

/-- C6 (amended): for a non-empty keyword with a configured density bound,
the keyword-placement check passes iff the (lowercased) keyword occurs in
the lowercased title **and** in the first 100 words of the text; whenever
the density falls below the minimum (resp. above the maximum without being
below the minimum) the corresponding density advisory is added to the
check's **issues** without by itself failing the check; but the scorer
surfaces those issues in its returned flags only when the placement check
fails — on a passing check the issues (density advisory included) are
discarded and the scorer appends nothing for the keyword check. -/
theorem C6_keyword_placement_and_density_advisory (fk : String → ℚ)
    (fmtF : ℚ → String) (text keyword title : String) (rules : Rules)
    (hk : keyword ≠ "")
    (hbounds : rules.keyword_density_min.isSome ∨
      rules.keyword_density_max.isSome) :
    ((MetricsService.check_seo_compliance_semantic fmtF text keyword title
        (rules.keyword_density_min.getD (1/2))
        (rules.keyword_density_max.getD (5/2))).is_compliant =
      (pyIn (pyLower keyword) (pyLower title) &&
        pyIn (pyLower keyword)
          (pyLower (" ".intercalate ((pySplitWS text).take 100))))) ∧
    ((MetricsService.check_seo_compliance_semantic fmtF text keyword title
        (rules.keyword_density_min.getD (1/2))
        (rules.keyword_density_max.getD (5/2))).density <
        rules.keyword_density_min.getD (1/2) →
      ("Keyword density low: " ++
          fmtF (MetricsService.check_seo_compliance_semantic fmtF text keyword
            title (rules.keyword_density_min.getD (1/2))
            (rules.keyword_density_max.getD (5/2))).density ++
          "% (guide: " ++ fmtF (rules.keyword_density_min.getD (1/2)) ++
          "%+)") ∈
        (MetricsService.check_seo_compliance_semantic fmtF text keyword title
          (rules.keyword_density_min.getD (1/2))
          (rules.keyword_density_max.getD (5/2))).issues) ∧
    (¬ (MetricsService.check_seo_compliance_semantic fmtF text keyword title
        (rules.keyword_density_min.getD (1/2))
        (rules.keyword_density_max.getD (5/2))).density <
        rules.keyword_density_min.getD (1/2) →
      (MetricsService.check_seo_compliance_semantic fmtF text keyword title
        (rules.keyword_density_min.getD (1/2))
        (rules.keyword_density_max.getD (5/2))).density >
        rules.keyword_density_max.getD (5/2) →
      ("Keyword density high: " ++
          fmtF (MetricsService.check_seo_compliance_semantic fmtF text keyword
            title (rules.keyword_density_min.getD (1/2))
            (rules.keyword_density_max.getD (5/2))).density ++
          "% (may feel unnatural, guide: <" ++
          fmtF (rules.keyword_density_max.getD (5/2)) ++ "%)") ∈
        (MetricsService.check_seo_compliance_semantic fmtF text keyword title
          (rules.keyword_density_min.getD (1/2))
          (rules.keyword_density_max.getD (5/2))).issues) ∧
    ((MetricsService.check_seo_compliance_semantic fmtF text keyword title
        (rules.keyword_density_min.getD (1/2))
        (rules.keyword_density_max.getD (5/2))).is_compliant = true →
      (MetricsService.calculate_compliance_score fk fmtF text rules
          (some keyword) title).2 =
        (MetricsService.readabilityCheck fk fmtF text rules).flags ++
        (MetricsService.paragraphCheck text rules).flags ++
        MetricsService.flaggedWordsAdvisory text) ∧
    ((MetricsService.check_seo_compliance_semantic fmtF text keyword title
        (rules.keyword_density_min.getD (1/2))
        (rules.keyword_density_max.getD (5/2))).is_compliant = false →
      (MetricsService.calculate_compliance_score fk fmtF text rules
          (some keyword) title).2 =
        (MetricsService.readabilityCheck fk fmtF text rules).flags ++
        (MetricsService.paragraphCheck text rules).flags ++
        MetricsService.flaggedWordsAdvisory text ++
        (MetricsService.check_seo_compliance_semantic fmtF text keyword title
          (rules.keyword_density_min.getD (1/2))
          (rules.keyword_density_max.getD (5/2))).issues) := by
  have hdd : (MetricsService.check_seo_compliance_semantic fmtF text keyword
      title (rules.keyword_density_min.getD (1/2))
      (rules.keyword_density_max.getD (5/2))).density =
      MetricsService.calculate_keyword_density text keyword := rfl
  have hact : pyTruthy (some keyword) = true ∧
      (rules.keyword_density_min.isSome ∨ rules.keyword_density_max.isSome) :=
    ⟨by simpa [pyTruthy] using hk, hbounds⟩
  have hsc : MetricsService.seoCheck fmtF text rules (some keyword) title =
      (if (MetricsService.check_seo_compliance_semantic fmtF text keyword title
          (rules.keyword_density_min.getD (1/2))
          (rules.keyword_density_max.getD (5/2))).is_compliant then
        (⟨true, true, []⟩ : CheckResult)
      else
        ⟨true, false,
          (MetricsService.check_seo_compliance_semantic fmtF text keyword title
            (rules.keyword_density_min.getD (1/2))
            (rules.keyword_density_max.getD (5/2))).issues⟩) := by
    unfold MetricsService.seoCheck
    rw [if_pos ⟨by simpa [pyTruthy] using hk, hbounds⟩]
    simp only [Option.getD_some]
  have hflags : (MetricsService.calculate_compliance_score fk fmtF text rules
      (some keyword) title).2 =
      (MetricsService.readabilityCheck fk fmtF text rules).flags ++
      (MetricsService.paragraphCheck text rules).flags ++
      MetricsService.flaggedWordsAdvisory text ++
      (MetricsService.seoCheck fmtF text rules (some keyword) title).flags :=
    rfl
  refine ⟨?_, ?_, ?_, ?_, ?_⟩
  · have hcc : (MetricsService.check_seo_compliance_semantic fmtF text keyword
        title (rules.keyword_density_min.getD (1/2))
        (rules.keyword_density_max.getD (5/2))).is_compliant =
        ((MetricsService.check_keyword_placement text keyword title).in_title &&
          (MetricsService.check_keyword_placement text keyword
            title).in_first_100) := rfl
    rw [hcc]
    unfold MetricsService.check_keyword_placement
    rw [if_neg hk]
    by_cases ht : title = ""
    · subst ht
      simp [show pyLower "" = "" from rfl,
        pyIn_empty_hay (pyLower keyword) (pyLower_toList_ne keyword hk)]
    · simp [ht]
  · intro hlow
    rw [hdd] at hlow
    show _ ∈ _ ++ _ ++ _ ++ _
    rw [hdd, if_pos hlow]
    simp [List.mem_append]
  · intro hnotlow hhigh
    rw [hdd] at hnotlow hhigh
    show _ ∈ _ ++ _ ++ _ ++ _
    rw [hdd, if_neg hnotlow, if_pos hhigh]
    simp [List.mem_append]
  · intro hcomp
    rw [hflags, hsc, if_pos hcomp]
    simp
  · intro hncomp
    rw [hflags, hsc, if_neg (by rw [hncomp]; exact Bool.false_ne_true)]

/-- Concrete instantiation of `C6_keyword_placement_and_density_advisory`:
on the passing check of `C6_counterexample`'s input, the high-density
advisory is in the check's issues while the scorer's returned flags carry
nothing. -/
theorem C6_keyword_placement_and_density_advisory_witness :
    "Keyword density high: X% (may feel unnatural, guide: <X%)" ∈
      (MetricsService.check_seo_compliance_semantic (fun _ => "X")
        "seo is here now" "seo" "seo"
        ((some (1/2) : Option ℚ).getD (1/2))
        ((some (5/2) : Option ℚ).getD (5/2))).issues ∧
    (MetricsService.calculate_compliance_score (fun _ => 0) (fun _ => "X")
        "seo is here now" ⟨none, none, some (1/2), some (5/2)⟩ (some "seo")
        "seo").2 =
      (MetricsService.readabilityCheck (fun _ => 0) (fun _ => "X")
        "seo is here now" ⟨none, none, some (1/2), some (5/2)⟩).flags ++
      (MetricsService.paragraphCheck "seo is here now"
        ⟨none, none, some (1/2), some (5/2)⟩).flags ++
      MetricsService.flaggedWordsAdvisory "seo is here now" := by
  have h := C6_keyword_placement_and_density_advisory (fun _ => 0)
    (fun _ => "X") "seo is here now" "seo" "seo"
    ⟨none, none, some (1/2), some (5/2)⟩ (by decide) (Or.inl rfl)
  have hd : (MetricsService.check_seo_compliance_semantic (fun _ => "X")
      "seo is here now" "seo" "seo"
      ((some (1/2) : Option ℚ).getD (1/2))
      ((some (5/2) : Option ℚ).getD (5/2))).density =
      MetricsService.calculate_keyword_density "seo is here now" "seo" := rfl
  constructor
  · have h3 := h.2.2.1 (by rw [hd, density_seo_here]; norm_num)
      (by rw [hd, density_seo_here]; norm_num)
    exact h3
  · exact h.2.2.2.1 (by decide)

/-! ## backend/utils/prompt_builder.py and backend/agents/writer_node.py —
the revision-target analyzer and the surgical rewrite

The LLM and the regex extraction of `HOOK:`/`BODY:` sections from its
response are external: the extraction outcome enters as
`hookMatch`/`bodyMatch : Option String` (`none` = the pattern did not
match).  The decorative-glyph class of the hook-deduplication regex is the
parameter `glyphs`. -/

/-- The `{hook, body, cta, structure}` targets dict of
`PromptBuilder.analyze_feedback_target` (`structure_` models the Python
key `'structure'`, a reserved word in Lean). -/
structure Targets where
  hook : Bool
  body : Bool
  cta : Bool
  structure_ : Bool
deriving DecidableEq

/-- `PromptBuilder.analyze_feedback_target`: each target is true iff the
lowercased feedback contains one of that category's indicator terms. -/
def PromptBuilder.analyze_feedback_target (feedback : String) : Targets :=
  let feedback_lower := pyLower feedback
  { hook := ["hook", "opening", "first line", "headline", "attention"].any
      (fun indicator => pyIn indicator feedback_lower)
    body := ["body", "content", "main section", "bullet", "paragraph"].any
      (fun indicator => pyIn indicator feedback_lower)
    cta := ["cta", "call to action", "closing", "ending"].any
      (fun indicator => pyIn indicator feedback_lower)
    structure_ := ["structure", "flow", "organization", "format"].any
      (fun indicator => pyIn indicator feedback_lower) }

/-- `WriterNode.execute` line 53:
`needs_full_rewrite = targets['structure'] or (targets['hook'] and
targets['body'])`; when false, the revision takes the surgical path. -/
def WriterNode.needs_full_rewrite (targets : Targets) : Bool :=
  targets.structure_ || (targets.hook && targets.body)

/-- One line of the body equals the hook up to case, optional surrounding
decorative glyphs and whitespace — the regex
`^[…]*\s*{hook_pattern}\s*[…]*$` with `re.IGNORECASE` applied to the
stripped line (greedy, without the regex engine's backtracking into a hook
that itself starts with a glyph — no claim depends on that corner). -/
def lineIsHookDup (glyphs : List Char) (hook line : String) : Bool :=
  let hp := (pyLower (pyStrip hook)).toList
  let l := (pyLower line).toList
  let l1 := (l.dropWhile (fun c => glyphs.contains c)).dropWhile Char.isWhitespace
  if hp.isPrefixOf l1 then
    ((l1.drop hp.length).dropWhile Char.isWhitespace).dropWhile
      (fun c => glyphs.contains c) = []
  else false

/-- The hook-deduplication loop of `WriterNode` (lines 224–234): keep a
line iff it is blank after stripping or is not a hook duplicate; re-join
and strip. -/
def WriterNode.cleanBodyLines (glyphs : List Char) (hook body : String) :
    String :=
  let body_lines := pySplitOn body "\n"
  let cleaned_lines := body_lines.filter (fun line =>
    let line_stripped := pyStrip line
    (line_stripped ≠ "" ∧ ¬ lineIsHookDup glyphs hook line_stripped) ∨
      line_stripped = "")
  pyStrip ("\n".intercalate cleaned_lines)

/-- `WriterNode._surgical_rewrite`, reduced to its effect on the draft's
`(hook, body)`: a section is re-parsed from the LLM response only when its
target flag is set (and the regex matched); every other section is carried
over unchanged.  A regenerated body is deduplicated against the (possibly
just-regenerated) hook. -/
def WriterNode.surgical_rewrite (glyphs : List Char) (targets : Targets)
    (hookMatch bodyMatch : Option String) (current_hook current_body : String) :
    String × String :=
  let new_hook :=
    if targets.hook then
      match hookMatch with
      | some h => pyStrip h
      | none => current_hook
    else current_hook
  let new_body :=
    if targets.body then
      match bodyMatch with
      | some b =>
        let body_content := pyStrip b
        if new_hook ≠ "" then WriterNode.cleanBodyLines glyphs new_hook body_content
        else body_content
      | none => current_body
    else current_body
  (new_hook, new_body)

/-! ## C4 — full regeneration vs. targeted patch -/

/-- C4 counterexample: feedback firing no category indicator yields
all-false targets, for which `needs_full_rewrite` is **false** — the Draft
stage takes the surgical path (which regenerates nothing), not the claimed
default full regeneration. -/
theorem C4_counterexample :
    PromptBuilder.analyze_feedback_target "Everything is mediocre overall" =
      ⟨false, false, false, false⟩ ∧
    WriterNode.needs_full_rewrite ⟨false, false, false, false⟩ = false ∧
    WriterNode.surgical_rewrite [] ⟨false, false, false, false⟩
        (some "H") (some "B") "h0" "b0" = ("h0", "b0") := by
  refine ⟨by decide, rfl, rfl⟩

/-- C4 (amended): full regeneration is performed iff `targets.structure`
is true or `targets.hook` and `targets.body` are both true; in particular,
when no category indicator fires the Draft stage takes the **surgical**
path and regenerates nothing (both sections carried over); and on the
surgical path every section whose flag is false is carried over unchanged
from the prior draft. -/
theorem C4_full_rewrite_decision_and_surgical_preservation
    (feedback : String) (glyphs : List Char)
    (hookMatch bodyMatch : Option String) (current_hook current_body : String) :
    (WriterNode.needs_full_rewrite
        (PromptBuilder.analyze_feedback_target feedback) = true ↔
      ((PromptBuilder.analyze_feedback_target feedback).structure_ = true ∨
        ((PromptBuilder.analyze_feedback_target feedback).hook = true ∧
          (PromptBuilder.analyze_feedback_target feedback).body = true))) ∧
    ((PromptBuilder.analyze_feedback_target feedback).hook = false →
      (WriterNode.surgical_rewrite glyphs
          (PromptBuilder.analyze_feedback_target feedback) hookMatch bodyMatch
          current_hook current_body).1 = current_hook) ∧
    ((PromptBuilder.analyze_feedback_target feedback).body = false →
      (WriterNode.surgical_rewrite glyphs
          (PromptBuilder.analyze_feedback_target feedback) hookMatch bodyMatch
          current_hook current_body).2 = current_body) ∧
    (PromptBuilder.analyze_feedback_target feedback =
        ⟨false, false, false, false⟩ →
      WriterNode.needs_full_rewrite
          (PromptBuilder.analyze_feedback_target feedback) = false ∧
        WriterNode.surgical_rewrite glyphs
            (PromptBuilder.analyze_feedback_target feedback) hookMatch
            bodyMatch current_hook current_body =
          (current_hook, current_body)) := by
  refine ⟨?_, ?_, ?_, ?_⟩
  · unfold WriterNode.needs_full_rewrite
    simp [Bool.or_eq_true, Bool.and_eq_true]
  · intro hh
    unfold WriterNode.surgical_rewrite
    simp [hh]
  · intro hb
    unfold WriterNode.surgical_rewrite
    simp [hb]
  · intro hall
    rw [hall]
    exact ⟨rfl, rfl⟩

/-- Concrete instantiation of
`C4_full_rewrite_decision_and_surgical_preservation`: CTA-only feedback
keeps both hook and body unchanged on the surgical path. -/
theorem C4_full_rewrite_decision_and_surgical_preservation_witness :
    (WriterNode.surgical_rewrite []
        (PromptBuilder.analyze_feedback_target "Improve the closing")
        (some "H") (some "B") "h0" "b0").1 = "h0" ∧
    (WriterNode.surgical_rewrite []
        (PromptBuilder.analyze_feedback_target "Improve the closing")
        (some "H") (some "B") "h0" "b0").2 = "b0" := by
  have h := C4_full_rewrite_decision_and_surgical_preservation
    "Improve the closing" [] (some "H") (some "B") "h0" "b0"
  exact ⟨h.2.1 (by decide), h.2.2.1 (by decide)⟩

/-! ## backend/utils/validators.py — request validation -/

/-- `UserConfig` from backend/core/state.py, restricted to the fields the
validator reads (`additional_context`/`target_audience` are never
consulted).  `custom_avatar_params` is the optional params dict, modelled
as an association list so Python's falsiness of both `None` and `{}` is
expressible. -/
structure UserConfig where
  topic : String
  platform : String
  avatar_id : String
  custom_avatar_params : Option (List (String × String))

/-- Python truthiness of the optional params dict: `None` and `{}` are
falsy. -/
def pyTruthyParams (params : Option (List (String × String))) : Bool :=
  match params with
  | none => false
  | some [] => false
  | some (_ :: _) => true

/-- `InputValidator.VALID_PLATFORMS`. -/
def InputValidator.VALID_PLATFORMS : List String := ["linkedin", "twitter", "blog"]

/-- `InputValidator.VALID_AVATARS`. -/
def InputValidator.VALID_AVATARS : List String :=
  ["stark", "musk", "jobs", "goggins", "viral_bro", "custom"]

/-- `InputValidator.validate_user_config`: topic length checked on the
stripped topic, platform and avatar lower-cased before membership testing,
custom avatar requires truthy params. -/
def InputValidator.validate_user_config (config : UserConfig) : Bool × String :=
  if config.topic = "" ∨ (pyStrip config.topic).length < 3 then
    (false, "Topic must be at least 3 characters")
  else if ¬ pyLower config.platform ∈ InputValidator.VALID_PLATFORMS then
    (false, "Platform must be one of: linkedin, twitter, blog")
  else if ¬ pyLower config.avatar_id ∈ InputValidator.VALID_AVATARS then
    (false, "Avatar must be one of: stark, musk, jobs, goggins, viral_bro, custom")
  else if pyLower config.avatar_id = "custom" ∧
      ¬ pyTruthyParams config.custom_avatar_params = true then
    (false, "Custom avatar requires custom_avatar_params")
  else
    (true, "Configuration valid")

/-! ## C10 — case-insensitive identifiers, whitespace-trimmed topic -/

/-- C10: a config validates iff the topic is non-empty with stripped length
at least 3, the lower-cased platform and avatar are in the allowed sets,
and a custom avatar comes with truthy params; in particular `"LinkedIn"` /
`"STARK"` are accepted, and the topic `" a "` (raw length 3, stripped
length 1) is rejected. -/
theorem C10_validation_case_insensitive_trimmed (config : UserConfig) :
    ((InputValidator.validate_user_config config).1 = true ↔
      (config.topic ≠ "" ∧ 3 ≤ (pyStrip config.topic).length ∧
        pyLower config.platform ∈ InputValidator.VALID_PLATFORMS ∧
        pyLower config.avatar_id ∈ InputValidator.VALID_AVATARS ∧
        (pyLower config.avatar_id = "custom" →
          pyTruthyParams config.custom_avatar_params = true))) ∧
    (InputValidator.validate_user_config
        ⟨"AI agents", "LinkedIn", "STARK", none⟩).1 = true ∧
    (InputValidator.validate_user_config
        ⟨" a ", "linkedin", "stark", none⟩).1 = false := by
  refine ⟨?_, by decide, by decide⟩
  unfold InputValidator.validate_user_config
  by_cases h1 : config.topic = "" ∨ (pyStrip config.topic).length < 3
  · rw [if_pos h1]
    constructor
    · intro hv; simp at hv
    · rintro ⟨hne, hlen, -⟩
      rcases h1 with h | h
      · exact absurd h hne
      · omega
  · rw [if_neg h1]
    by_cases h2 : pyLower config.platform ∈ InputValidator.VALID_PLATFORMS
    · rw [if_neg (not_not.mpr h2)]
      by_cases h3 : pyLower config.avatar_id ∈ InputValidator.VALID_AVATARS
      · rw [if_neg (not_not.mpr h3)]
        by_cases h4 : pyLower config.avatar_id = "custom" ∧
            ¬ pyTruthyParams config.custom_avatar_params = true
        · rw [if_pos h4]
          constructor
          · intro hv; simp at hv
          · rintro ⟨-, -, -, -, hcustom⟩
            exact absurd (hcustom h4.1) h4.2
        · rw [if_neg h4]
          push_neg at h1 h4
          obtain ⟨hne, hlen⟩ := h1
          constructor
          · intro _
            exact ⟨hne, by omega, h2, h3, h4⟩
          · intro _
            rfl
      · rw [if_pos h3]
        constructor
        · intro hv; simp at hv
        · rintro ⟨-, -, -, ha, -⟩
          exact absurd ha h3
    · rw [if_pos h2]
      constructor
      · intro hv; simp at hv
      · rintro ⟨-, -, hp, -⟩
        exact absurd hp h2

/-- Concrete instantiation of `C10_validation_case_insensitive_trimmed`:
mixed-case identifiers accepted via the characterization. -/
theorem C10_validation_case_insensitive_trimmed_witness :
    (InputValidator.validate_user_config
        ⟨"Hello world", "Blog", "MUSK", none⟩).1 = true := by
  have h := (C10_validation_case_insensitive_trimmed
    ⟨"Hello world", "Blog", "MUSK", none⟩).1
  exact h.mpr ⟨by decide, by decide, by decide, by decide,
    fun hc => absurd hc (by decide)⟩
